import Mathlib

/-!
Shallow embedding of the yew-router routing core: the AnyRoute codec
(packages/yew-router/src/routable.rs), the Switch dispatch logic
(packages/yew-router/src/switch.rs), and the Router location context,
basename reconciliation and listener lifecycle
(packages/yew-router/src/router.rs).

Side effects that do not influence the routing result (logging transports,
session fixtures, network probes present in the source) are outside the
functional model; the diagnostic log count of Switch and the navigation
calls of the Router are tracked explicitly in the return values.
-/

namespace YewRouter

/-- The AnyRoute struct of routable.rs: a special route that accepts any
route, holding the raw pathname. -/
structure AnyRoute where
  path : String
deriving DecidableEq, Repr

namespace AnyRoute

/-- AnyRoute::from_path: returns the route holding the path verbatim when
the pre-extracted parameter mapping is empty, and None otherwise.  The
parameter mapping of the source (a HashMap) is embedded as an association
list; only its emptiness is consulted. -/
def from_path (path : String) (params : List (String × String)) : Option AnyRoute :=
  if params.isEmpty then some { path := path } else none

/-- AnyRoute::to_path: serializes the route back to its stored path. -/
def to_path (r : AnyRoute) : String :=
  r.path

/-- AnyRoute::routes: the declared pattern list, a single catch-all. -/
def routes : List String :=
  ["/*path"]

/-- AnyRoute::not_found_route: the designated fallback. -/
def not_found_route : Option AnyRoute :=
  some { path := "/404" }

/-- AnyRoute::recognize: accepts every pathname verbatim. -/
def recognize (pathname : String) : Option AnyRoute :=
  some { path := pathname }

end AnyRoute

/-- Rendered output of a component; Html::default() is the empty output
produced by the empty html macro in switch.rs. -/
inductive Html where
  | empty : Html
  | node : String → Html
deriving DecidableEq, Repr

/-- Html::default() of the source is the empty output. -/
def htmlDefault : Html := Html.empty

/-- Observable outcome of one Switch invocation: the returned output, the
number of diagnostic log entries emitted, and the list of routes the
render callback was invoked with, in order. -/
structure SwitchOutput (R : Type) where
  html : Html
  diagnostics : Nat
  renderCalls : List R
deriving DecidableEq, Repr

/-- The body of the Switch function component of switch.rs: the route from
the current location (the use_route hook) is overridden by
pathname.and_then(recognize).or(route); on Some the render callback is
emitted, on None a warning is logged and Html::default() returned. -/
def switchRun {R : Type} (recognize : String → Option R) (currentRoute : Option R)
    (render : R → Html) (pathname : Option String) : SwitchOutput R :=
  match Option.or (pathname.bind recognize) currentRoute with
  | some r => { html := render r, diagnostics := 0, renderCalls := [r] }
  | none => { html := htmlDefault, diagnostics := 1, renderCalls := [] }

/-- Location snapshot as used by the Router: path, raw query string and
hash fragment. -/
structure Location where
  path : String
  queryStr : String
  hash : String
deriving DecidableEq, Repr

/-- The modulus of the 32-bit unsigned revision counter of LocationContext. -/
def u32Mod : Nat := 2 ^ 32

/-- LocationContext of router.rs: the reactive value holding the current
location together with a u32 revision counter (embedded as a natural
number below the u32 modulus). -/
structure LocationContext where
  location : Location
  ctr : Nat
deriving DecidableEq, Repr

namespace LocationContext

/-- The PartialEq impl of LocationContext: equality consults only the
revision counter. -/
def eqb (a b : LocationContext) : Bool :=
  a.ctr == b.ctr

/-- The Reducible impl of LocationContext: a dispatched Location becomes
the new location and the counter is incremented; the u32 addition of the
source wraps at the 32-bit boundary, embedded with an explicit modulus. -/
def reduce (s : LocationContext) (action : Location) : LocationContext :=
  { location := action, ctr := (s.ctr + 1) % u32Mod }

end LocationContext

/-- Modelled from the spec: Navigator.strip_basename (navigator.rs is not
among the provided sources).  Per the spec, it removes a leading basename
occurrence from a store-reported path; if the path does not start with the
basename, it is returned unchanged; with no basename configured the path
passes through. -/
def strip_basename (basename : Option String) (path : String) : String :=
  match basename with
  | none => path
  | some b =>
    if b.data.isPrefixOf path.data then String.mk (path.data.drop b.data.length)
    else path

/-- Modelled from the spec: Navigator.prefix_basename (navigator.rs is not
among the provided sources).  Per the spec, it prepends the configured
basename, if any, to an application-relative path. -/
def prefix_basename (basename : Option String) (path : String) : String :=
  match basename with
  | none => path
  | some b => b ++ path

/-- A navigation issued against the History Store. -/
inductive HistoryCall where
  | push (path : String) (query : String)
  | replace (path : String) (query : String)
deriving DecidableEq, Repr

/-- Whether a navigation call is a push (rather than a replace). -/
def HistoryCall.isPush : HistoryCall → Bool
  | .push _ _ => true
  | .replace _ _ => false

/-- The basename reconciliation step of base_router in router.rs, acting on
the already-normalized basename: when the configured basename differs from
the previously applied one, the stored basename is updated, the reported
path is stripped with the old basename falling back to the new one
(old_basename.or(basename)), re-prefixed with the new basename, and a
replace navigation is issued exactly when the result differs from the
reported path.  Returns the stored basename after the render and the list
of navigation calls issued. -/
def rehomeBasename (basename oldBasename : Option String) (locPath locQuery : String) :
    Option String × List HistoryCall :=
  if basename = oldBasename then (oldBasename, [])
  else
    let stripNav := Option.or oldBasename basename
    let stripped := strip_basename stripNav locPath
    let prefixed := prefix_basename basename stripped
    if prefixed ≠ locPath then (basename, [HistoryCall.replace prefixed locQuery])
    else (basename, [])

/-- Modelled from the spec: the History Store listener registry (the
History implementation is not among the provided sources).  Listeners are
identified by handles; listen appends a fresh handle, dropping a handle
removes it, and a navigation event delivers one callback invocation per
registered occurrence of a handle. -/
structure HistoryStore where
  listeners : List Nat
  nextId : Nat
deriving DecidableEq, Repr

namespace HistoryStore

/-- Modelled from the spec: History::listen registers one callback and
returns its subscription handle. -/
def listen (h : HistoryStore) : HistoryStore × Nat :=
  ({ listeners := h.listeners ++ [h.nextId], nextId := h.nextId + 1 }, h.nextId)

/-- Modelled from the spec: dropping a subscription handle releases the
listener; releasing an absent handle is a no-op. -/
def dropListener (h : HistoryStore) (id : Nat) : HistoryStore :=
  { h with listeners := h.listeners.filter (fun x => x != id) }

/-- Number of callback invocations the listener with the given handle
receives on one navigation event. -/
def deliveries (h : HistoryStore) (id : Nat) : Nat :=
  (h.listeners.filter (fun x => x == id)).length

/-- Handles of registered listeners are always below the freshness bound. -/
def wf (h : HistoryStore) : Prop :=
  ∀ id ∈ h.listeners, id < h.nextId

end HistoryStore

/-- The mount half of the location-subscription effect of base_router in
router.rs: exactly one History::listen call, whose handle is captured by
the returned destructor. -/
def routerEffectMount (h : HistoryStore) : HistoryStore × Nat :=
  h.listen

/-- The destructor of the location-subscription effect of base_router in
router.rs: it drops the captured listener handle. -/
def routerEffectCleanup (h : HistoryStore) (handle : Nat) : HistoryStore :=
  h.dropListener handle

end YewRouter

namespace YewRouter

/-- Claim C1: for every path p such that AnyRoute::from_path with an empty
parameter mapping returns some route r, serializing r with to_path and
re-parsing with recognize yields from_path(p, params) again. -/
theorem anyroute_roundtrip (p : String) (params : List (String × String)) (r : AnyRoute)
    (hp : params = []) (h : AnyRoute.from_path p params = some r) :
    AnyRoute.recognize (AnyRoute.to_path r) = AnyRoute.from_path p params := by
  subst hp
  simp only [AnyRoute.from_path, List.isEmpty_nil, if_pos] at h ⊢
  cases h
  rfl

/-- Witness for claim C1 at the concrete path /foo. -/
theorem anyroute_roundtrip_witness :
    AnyRoute.recognize (AnyRoute.to_path { path := "/foo" }) = AnyRoute.from_path "/foo" [] :=
  anyroute_roundtrip "/foo" [] { path := "/foo" } rfl (by decide)

/-- Claim C2: when route resolution fails — the pathname override, if any,
is not recognized and no current route is available — the Switch returns
the empty output, emits exactly one diagnostic log entry and never invokes
the render callback. -/
theorem switch_unmatched_empty {R : Type} (recognize : String → Option R)
    (currentRoute : Option R) (render : R → Html) (pathname : Option String)
    (hcur : currentRoute = none)
    (hrec : ∀ p, pathname = some p → recognize p = none) :
    switchRun recognize currentRoute render pathname =
      { html := Html.empty, diagnostics := 1, renderCalls := [] } := by
  subst hcur
  cases pathname with
  | none => rfl
  | some p => simp [switchRun, hrec p rfl, Option.or, htmlDefault]

/-- Witness for claim C2: path /unknown with no recognizing codec and no
current route yields the empty output and one diagnostic. -/
theorem switch_unmatched_empty_witness :
    switchRun (R := Nat) (fun _ => none) none (fun n => Html.node (toString n)) (some "/unknown") =
      { html := Html.empty, diagnostics := 1, renderCalls := [] } :=
  switch_unmatched_empty (fun _ => none) none (fun n => Html.node (toString n)) (some "/unknown")
    rfl (fun _ _ => rfl)

/-- Claim C3 counterexample: with a pathname override supplied whose
recognition fails, the Switch output does depend on the current route from
the Location — with current route some 5 the render callback is invoked
with 5, while with no current route the output is empty, so the result is
not determined by recognize of the override alone. -/
theorem switch_override_cex :
    switchRun (R := Nat) (fun _ => none) (some 5) (fun _ => Html.node "r") (some "/x") ≠
      switchRun (R := Nat) (fun _ => none) none (fun _ => Html.node "r") (some "/x") ∧
    (switchRun (R := Nat) (fun _ => none) (some 5) (fun _ => Html.node "r")
      (some "/x")).renderCalls = [5] := by
  decide

/-- Claim C3 amended: when a pathname override is supplied and recognized,
the rendered route is determined by recognize alone, whatever the current
route; when recognition of the override fails, the Switch falls back to
the current route from the Location, behaving as if no override were
supplied. -/
theorem switch_override_behavior {R : Type} (recognize : String → Option R)
    (currentRoute : Option R) (render : R → Html) (p : String) :
    (∀ r, recognize p = some r →
      switchRun recognize currentRoute render (some p) =
        { html := render r, diagnostics := 0, renderCalls := [r] }) ∧
    (recognize p = none →
      switchRun recognize currentRoute render (some p) =
        switchRun recognize currentRoute render none) := by
  constructor
  · intro r hr
    simp [switchRun, hr, Option.or]
  · intro hr
    simp [switchRun, hr]

/-- Witness for the amended claim C3: a recognized override renders its
route regardless of the current route some 5. -/
theorem switch_override_behavior_witness :
    switchRun (R := Nat) (fun s => if s = "/a" then some 1 else none) (some 5)
      (fun _ => Html.node "r") (some "/a") =
      { html := Html.node "r", diagnostics := 0, renderCalls := [1] } :=
  (switch_override_behavior (fun s => if s = "/a" then some 1 else none) (some 5)
    (fun _ => Html.node "r") "/a").1 1 (by decide)

end YewRouter

namespace YewRouter

/-- Claim C4 counterexample: on a first render (no previously applied
basename) with configured basename /base and reported path /base/foo,
stripping the old basename (none) and prefixing the new one yields
/base/base/foo, which differs from the reported path, so the claim demands
one replace navigation; the code instead strips with the new basename and
issues no navigation call at all. -/
theorem rehome_first_render_cex :
    prefix_basename (some "/base") (strip_basename none "/base/foo") ≠ "/base/foo" ∧
    rehomeBasename (some "/base") none "/base/foo" "" = (some "/base", []) := by
  decide

/-- Claim C4 amended: on a render where the configured basename differs
from the previously applied basename, the reported path is stripped with
the old basename when one had been applied and with the new basename on
the first render (old_basename.or(basename)), then re-prefixed with the
new basename, and exactly one replace navigation — never a push — is
issued when the result differs from the reported path; when it is equal,
no navigation call is made. -/
theorem rehome_replace_behavior (b oldB : Option String) (p q : String)
    (h : b ≠ oldB) :
    (prefix_basename b (strip_basename (Option.or oldB b) p) ≠ p →
      rehomeBasename b oldB p q =
        (b, [HistoryCall.replace (prefix_basename b (strip_basename (Option.or oldB b) p)) q])) ∧
    (prefix_basename b (strip_basename (Option.or oldB b) p) = p →
      rehomeBasename b oldB p q = (b, [])) ∧
    (∀ c ∈ (rehomeBasename b oldB p q).2, c.isPush = false) := by
  refine ⟨?_, ?_, ?_⟩
  · intro hne
    simp [rehomeBasename, h, hne]
  · intro heq
    simp [rehomeBasename, h, heq]
  · intro c hc
    simp only [rehomeBasename, if_neg h] at hc
    split at hc
    · simp only [List.mem_singleton] at hc
      subst hc
      rfl
    · simp at hc

/-- Witness for the amended claim C4: changing the basename from /old to
/new with reported path /old/x issues exactly one replace to /new/x. -/
theorem rehome_replace_behavior_witness :
    rehomeBasename (some "/new") (some "/old") "/old/x" "" =
      (some "/new", [HistoryCall.replace "/new/x" ""]) :=
  (rehome_replace_behavior (some "/new") (some "/old") "/old/x" "" (by decide)).1 (by decide)

/-- Claim C5: LocationContext equality holds iff the revision counters are
equal, irrespective of the Location fields; in particular two contexts
with identical locations but different counters are unequal. -/
theorem location_context_eq_iff :
    (∀ a b : LocationContext, a.eqb b = true ↔ a.ctr = b.ctr) ∧
    (∀ (l : Location) (c₁ c₂ : Nat), c₁ ≠ c₂ →
      LocationContext.eqb { location := l, ctr := c₁ } { location := l, ctr := c₂ } = false) := by
  constructor
  · intro a b
    simp [LocationContext.eqb]
  · intro l c₁ c₂ hne
    simp [LocationContext.eqb, hne]

/-- Witness for claim C5: identical locations with counters 0 and 1 are
unequal. -/
theorem location_context_eq_iff_witness :
    LocationContext.eqb { location := { path := "/", queryStr := "", hash := "" }, ctr := 0 }
      { location := { path := "/", queryStr := "", hash := "" }, ctr := 1 } = false :=
  location_context_eq_iff.2 { path := "/", queryStr := "", hash := "" } 0 1 (by decide)

/-- Claim C6 counterexample: at counter u32::MAX the reduce step does not
yield counter c + 1 — the 32-bit increment wraps to 0, so the revision is
not strictly increasing at the wrap point. -/
theorem location_reduce_overflow_cex :
    (LocationContext.reduce
        { location := { path := "/", queryStr := "", hash := "" }, ctr := 2 ^ 32 - 1 }
        { path := "/a", queryStr := "", hash := "" }).ctr = 0 ∧
    (LocationContext.reduce
        { location := { path := "/", queryStr := "", hash := "" }, ctr := 2 ^ 32 - 1 }
        { path := "/a", queryStr := "", hash := "" }).ctr ≠ 2 ^ 32 - 1 + 1 := by
  decide

/-- Claim C6 amended: for every state with counter c such that c + 1 is
below the 32-bit modulus, reducing with a dispatched location a yields the
state holding location a and counter c + 1, so the revision counter is
strictly increasing below the wrap bound. -/
theorem location_reduce_step (s : LocationContext) (a : Location)
    (h : s.ctr + 1 < u32Mod) :
    (s.reduce a).location = a ∧ (s.reduce a).ctr = s.ctr + 1 ∧ s.ctr < (s.reduce a).ctr := by
  have hm : (s.ctr + 1) % u32Mod = s.ctr + 1 := Nat.mod_eq_of_lt h
  refine ⟨rfl, ?_, ?_⟩
  · simp [LocationContext.reduce, hm]
  · simp [LocationContext.reduce, hm]

/-- Witness for the amended claim C6 at counter 0. -/
theorem location_reduce_step_witness :
    (LocationContext.reduce { location := { path := "/", queryStr := "", hash := "" }, ctr := 0 }
        { path := "/a", queryStr := "", hash := "" }).location
      = { path := "/a", queryStr := "", hash := "" } ∧
    (LocationContext.reduce { location := { path := "/", queryStr := "", hash := "" }, ctr := 0 }
        { path := "/a", queryStr := "", hash := "" }).ctr = 0 + 1 ∧
    0 < (LocationContext.reduce { location := { path := "/", queryStr := "", hash := "" }, ctr := 0 }
        { path := "/a", queryStr := "", hash := "" }).ctr :=
  location_reduce_step _ _ (by norm_num [u32Mod])

end YewRouter

namespace YewRouter

/-- Claim C7: the declared pattern list of AnyRoute is exactly the single
catch-all, and recognize returns some route holding the pathname verbatim
for every pathname — never none. -/
theorem anyroute_recognize_total :
    AnyRoute.routes = ["/*path"] ∧
    (∀ p : String, AnyRoute.recognize p = some { path := p }) :=
  ⟨rfl, fun _ => rfl⟩

/-- Claim C8: from_path returns some route holding the path verbatim
exactly when the parameter mapping is empty, and none whenever the mapping
is non-empty. -/
theorem anyroute_from_path_params (p : String) (params : List (String × String)) :
    (params = [] → AnyRoute.from_path p params = some { path := p }) ∧
    (params ≠ [] → AnyRoute.from_path p params = none) := by
  constructor
  · intro h
    subst h
    rfl
  · intro h
    cases params with
    | nil => exact absurd rfl h
    | cons a l => rfl

/-- Witness for claim C8: the empty mapping succeeds and a singleton
mapping fails. -/
theorem anyroute_from_path_params_witness :
    AnyRoute.from_path "/foo" [] = some { path := "/foo" } ∧
    AnyRoute.from_path "/foo" [("id", "1")] = none :=
  ⟨(anyroute_from_path_params "/foo" []).1 rfl,
   (anyroute_from_path_params "/foo" [("id", "1")]).2 (by decide)⟩

/-- Claim C9: on a well-formed store the location-subscription effect
registers exactly one listener per mount, and its destructor drops that
handle, restoring the listener list and leaving the dropped callback with
zero deliveries on any later navigation event. -/
theorem router_listener_lifecycle (h : HistoryStore) (hw : h.wf) :
    ((routerEffectMount h).1.listeners.length = h.listeners.length + 1) ∧
    ((routerEffectCleanup (routerEffectMount h).1 (routerEffectMount h).2).listeners
      = h.listeners) ∧
    ((routerEffectCleanup (routerEffectMount h).1 (routerEffectMount h).2).deliveries
      (routerEffectMount h).2 = 0) := by
  have hfilter : h.listeners.filter (fun x => x != h.nextId) = h.listeners := by
    rw [List.filter_eq_self]
    intro a ha
    simpa using Nat.ne_of_lt (hw a ha)
  have hclean :
      (routerEffectCleanup (routerEffectMount h).1 (routerEffectMount h).2).listeners
        = h.listeners := by
    simp [routerEffectCleanup, routerEffectMount, HistoryStore.listen, HistoryStore.dropListener,
      List.filter_append, hfilter]
  refine ⟨?_, hclean, ?_⟩
  · simp [routerEffectMount, HistoryStore.listen]
  · have hnil : h.listeners.filter (fun x => x == h.nextId) = [] := by
      rw [List.filter_eq_nil_iff]
      intro a ha
      simpa using Nat.ne_of_lt (hw a ha)
    have hm2 : (routerEffectMount h).2 = h.nextId := rfl
    unfold HistoryStore.deliveries
    rw [hclean, hm2, hnil]
    rfl

/-- Witness for claim C9 on the empty store. -/
theorem router_listener_lifecycle_witness :
    ((routerEffectMount { listeners := [], nextId := 0 }).1.listeners.length
      = ({ listeners := [], nextId := 0 } : HistoryStore).listeners.length + 1) ∧
    ((routerEffectCleanup (routerEffectMount { listeners := [], nextId := 0 }).1
        (routerEffectMount { listeners := [], nextId := 0 }).2).listeners
      = ({ listeners := [], nextId := 0 } : HistoryStore).listeners) ∧
    ((routerEffectCleanup (routerEffectMount { listeners := [], nextId := 0 }).1
        (routerEffectMount { listeners := [], nextId := 0 }).2).deliveries
      (routerEffectMount { listeners := [], nextId := 0 }).2 = 0) :=
  router_listener_lifecycle { listeners := [], nextId := 0 }
    (by intro id hid; simp at hid)

/-- Claim C10: the revision counter is 32-bit and the reduce step has no
overflow guard: below u32::MAX the increment is exact and strictly
increasing, while at exactly u32::MAX the increment wraps to 0 modulo
2 ^ 32. -/
theorem location_ctr_wrap :
    (∀ (s : LocationContext) (a : Location), s.ctr < u32Mod - 1 →
      (s.reduce a).ctr = s.ctr + 1 ∧ s.ctr < (s.reduce a).ctr) ∧
    (∀ (s : LocationContext) (a : Location), s.ctr = u32Mod - 1 →
      (s.reduce a).ctr = 0) := by
  constructor
  · intro s a hlt
    have h1 : s.ctr + 1 < u32Mod := by
      have h2 : u32Mod = 4294967296 := by norm_num [u32Mod]
      omega
    have hm : (s.ctr + 1) % u32Mod = s.ctr + 1 := Nat.mod_eq_of_lt h1
    exact ⟨by simp [LocationContext.reduce, hm], by simp [LocationContext.reduce, hm]⟩
  · intro s a heq
    simp [LocationContext.reduce, heq, u32Mod]

/-- Witness for claim C10: counter 7 increments exactly, and counter
u32::MAX wraps to 0. -/
theorem location_ctr_wrap_witness :
    ((LocationContext.reduce { location := { path := "/", queryStr := "", hash := "" }, ctr := 7 }
        { path := "/b", queryStr := "", hash := "" }).ctr = 7 + 1 ∧
      7 < (LocationContext.reduce
        { location := { path := "/", queryStr := "", hash := "" }, ctr := 7 }
        { path := "/b", queryStr := "", hash := "" }).ctr) ∧
    (LocationContext.reduce
        { location := { path := "/", queryStr := "", hash := "" }, ctr := 2 ^ 32 - 1 }
        { path := "/b", queryStr := "", hash := "" }).ctr = 0 :=
  ⟨location_ctr_wrap.1 _ _ (by norm_num [u32Mod]),
   location_ctr_wrap.2 _ _ (by norm_num [u32Mod])⟩

end YewRouter
